import Mathlib

/-!
Verification development for the pydatpiff playback-position tracker.

The embedding follows the two player backends:
  * `Android` models `pydatpiff/backend/audio/androidplayer.py` (class
    `Android`): the state dictionary `_state`, the wall-clock anchor
    `_start_time`, the captured pause position `_pause_pos`, the loaded
    content length `len(self.__content)` and track `duration`, together
    with the transition methods `__load`, `_play`, `play`, `pause`,
    `_seeker`, `rewind`, `ffwd`, `setTrack` and `stop`.
  * `Player` models `src/player.py` (class `Player`), the desktop VLC
    wrapper, for the claims about `_ffwd_rewind` and `_state`.

Wall-clock time (`time()` in python) is passed explicitly as a rational
parameter `now`; python floats are modelled as exact rationals, and each
method evaluates all of its `time()` reads at the single instant `now`
(the claims all ignore scheduling jitter inside one call).  Side effects
on the transport (file writes, `Popen` of intents and service commands)
are recorded in an explicit `trace` so that collaborator calls are
observable.
-/

/-- Truncating conversion from rationals to integers, the semantics of
python's `int(...)` on a float: rounding toward zero. -/
def truncQ (q : ℚ) : ℤ := if 0 ≤ q then ⌊q⌋ else ⌈q⌉

namespace Android

/-- Transport side effects of the android backend: writing the sliced mp3
content starting at a byte offset (`mp3.write(self.__content[topos:])`),
launching the `am start` view intent, and the `am stopservice` command. -/
inductive Cmd where
  | writeBytes (fromOffset : ℤ)
  | startIntent
  | stopService
  deriving DecidableEq

/-- State of the `Android` player object.  `playing`, `pause`, `load`,
`stop` are the four flags of the `_state` dict (the source reads the same
dict both as `self._state` and as `self.state`, the `BasePlayer` alias);
`startTime` is `_start_time`, `pausePos` is the optional `_pause_pos`
(absent until first assigned, `hasattr` check in the source), `loadTime`
is `_load_time`, `currentTime` is `current_time`, `elapse` is `_elapse`,
`contentLen` is `len(self.__content)`, `duration` is the track length in
seconds from the id3 tag, `topos` is the last byte offset written
(`self.topos`), and `trace` records transport calls. -/
structure AndroidState where
  playing : Bool
  pause : Bool
  load : Bool
  stop : Bool
  startTime : ℚ
  pausePos : Option ℚ
  loadTime : ℚ
  currentTime : ℚ
  elapse : ℚ
  contentLen : ℕ
  duration : ℚ
  topos : ℤ
  trace : List Cmd
  name : String
  songpath : String
  deriving DecidableEq

/-- Getter of the `current_position` property:
`pos = time() - self._start_time; return pos if pos > 0 else 0`. -/
def current_position (now : ℚ) (s : AndroidState) : ℚ :=
  let pos := now - s.startTime
  if pos > 0 then pos else 0

/-- Setter of the `current_position` property:
`self._start_time -= pos`.  Note that this shifts the anchor by `pos`,
so it increments the position read by the getter rather than setting it. -/
def set_current_position (pos : ℚ) (s : AndroidState) : AndroidState :=
  { s with startTime := s.startTime - pos }

/-- Getter of the `pause_position` property.  When `_pause_pos` has been
assigned it returns it; the unassigned branch of the source returns 0
(after attempting to seed `_pause_pos` from a base-class field). -/
def pause_position (s : AndroidState) : ℚ := s.pausePos.getD 0

/-- Setter of the `pause_position` property: `self._pause_pos = pos`. -/
def set_pause_position (pos : ℚ) (s : AndroidState) : AndroidState :=
  { s with pausePos := some pos }

/-- The `bytes_per_sec` property: `len(self)/self.duration` (python true
division of the content byte length by the track duration in seconds). -/
def bytes_per_sec (s : AndroidState) : ℚ := (s.contentLen : ℚ) / s.duration

/-- The private `__resetState` helper:
`self._state = dict(playing=False,pause=False,load=False,stop=False)`. -/
def resetState (s : AndroidState) : AndroidState :=
  { s with playing := false, pause := false, load := false, stop := false }

/-- The `_is_playing(boolean)` helper: sets the playing flag to `boolean`
and the pause flag to its negation. -/
def is_playing (b : Bool) (s : AndroidState) : AndroidState :=
  { s with playing := b, pause := !b }

/-- The `preloadTrack` method: re-reads the id3 tag and the raw file
content (the same file, so `contentLen` and `duration` are unchanged) and
sets the load flag: `self._state['load'] = True`. -/
def preloadTrack (s : AndroidState) : AndroidState :=
  { s with load := true }

/-- The private `__load(position)` method.  With the pause flag set it
computes `difference = current_position - (pause_position + position)`
and assigns `current_position = -difference` (through the incrementing
setter); otherwise it assigns `current_position = position`.  It then
computes `spot = int(current_position + position)` re-reading the getter,
`topos = spot*bytes_per_sec if spot > 0 else 1*bytes_per_sec`,
`topos = int(topos)`, records `_load_time = time()`, stores `self.topos`
and writes `self.__content[topos:]` to the temp file. -/
def loadSlice (now : ℚ) (position : ℚ) (s : AndroidState) : AndroidState :=
  let s1 :=
    if s.pause then
      let difference := current_position now s - (pause_position s + position)
      set_current_position (-difference) s
    else
      set_current_position position s
  let spot : ℤ := truncQ (current_position now s1 + position)
  let toposQ : ℚ :=
    if 0 < spot then (spot : ℚ) * bytes_per_sec s1 else 1 * bytes_per_sec s1
  let t : ℤ := truncQ toposQ
  { s1 with loadTime := now, topos := t, trace := s1.trace ++ [Cmd.writeBytes t] }

/-- The `_play(position=0)` method: `preloadTrack` (which always leaves
the load flag true, so the `if not self._state['load']` branch is dead),
then `__load(position)`, then `Popen` of the `am start` intent, then
`self._state['pause'] = False` and `self._is_playing(True)`. -/
def _play (now : ℚ) (position : ℚ) (s : AndroidState) : AndroidState :=
  let s1 := preloadTrack s
  let s2 := loadSlice now position s1
  let s3 := { s2 with trace := s2.trace ++ [Cmd.startIntent] }
  let s4 := { s3 with pause := false }
  is_playing true s4

/-- The `play` property: starts the background clock (no immediate state
change), anchors `self._start_time = time()` and calls `self._play()`
with the default position 0. -/
def play (now : ℚ) (s : AndroidState) : AndroidState :=
  _play now 0 { s with startTime := now }

/-- The `pause` property.  When the pause flag is not set: runs the
`stop` transport command, `self._is_playing(False)` (playing := false,
pause := true), then captures
`self.pause_position = self.current_position`.  When the pause flag is
already set it unpauses by calling `self._play()` (position 0). -/
def pauseToggle (now : ℚ) (s : AndroidState) : AndroidState :=
  if s.pause = false then
    let s1 := { s with trace := s.trace ++ [Cmd.stopService] }
    let s2 := is_playing false s1
    set_pause_position (current_position now s2) s2
  else
    _play now 0 s

/-- The `_seeker(pos, rew)` method: clears the pause flag when set, then
calls `self._play(position=pos)` (the local `spot = pos` is unused). -/
def _seeker (now : ℚ) (pos : ℚ) (s : AndroidState) : AndroidState :=
  let s1 := if s.pause then { s with pause := false } else s
  _play now pos s1

/-- The `rewind(pos=5)` method: `self._seeker(-(pos), True)`. -/
def rewind (now : ℚ) (pos : ℚ) (s : AndroidState) : AndroidState :=
  _seeker now (-pos) s

/-- The `ffwd(pos=5)` method: `self._seeker(pos, False)`. -/
def ffwd (now : ℚ) (pos : ℚ) (s : AndroidState) : AndroidState :=
  _seeker now pos s

/-- The `stop` property: spawns
`am stopservice org.videolan.vlc/org.videolan.vlc.PlaybackService`; no
field of the tracker state is assigned. -/
def stopTransport (s : AndroidState) : AndroidState :=
  { s with trace := s.trace ++ [Cmd.stopService] }

/-- The `setTrack(name, path)` method: sets `current_time = 0`, calls
`__resetState`, then checks `Path.isFile(path)` (a collaborator, passed
as the boolean `isFile`): on success stores the name and path, otherwise
raises `AndroidError('Internal Error: Media song invalid path')`; finally
anchors `_load_time = time()` and runs the `elapse` setter
(`_elapse = time() - _load_time`, hence 0 at this instant). -/
def setTrack (now : ℚ) (nm pth : String) (isFile : Bool) (s : AndroidState) :
    Except String AndroidState :=
  let s1 := { s with currentTime := 0 }
  let s2 := resetState s1
  if isFile then
    let s3 := { s2 with name := nm, songpath := pth }
    let s4 := { s3 with loadTime := now }
    Except.ok { s4 with elapse := now - s4.loadTime }
  else
    Except.error "Internal Error: Media song invalid path"

/-- The end-of-track condition inside `startClock`:
`hasattr(self,'__content')` guards
`self.current_position > (len(self)/self.bytes_per_sec) and
self._state['playing']`, upon which `__resetState` runs ('Track finish').
The guard argument `hasContentAttr` stands for the `hasattr` test; note
that the attribute written by `preloadTrack` is name-mangled to
`_Android__content`, so the literal lookup of `'__content'` in the source
is never satisfied. -/
def finish_condition (hasContentAttr : Bool) (now : ℚ) (s : AndroidState) : Prop :=
  hasContentAttr = true ∧
    current_position now s > (s.contentLen : ℚ) / bytes_per_sec s ∧
    s.playing = true

instance (hc : Bool) (now : ℚ) (s : AndroidState) :
    Decidable (finish_condition hc now s) := by
  unfold finish_condition
  infer_instance

end Android

namespace Player

/-- Transport side effects of the desktop VLC wrapper that the claims
observe: `self.player.set_time(...)` and `self.player.stop()`. -/
inductive VlcCmd where
  | setTime (t : ℤ)
  | halt
  deriving DecidableEq

/-- Observable state of the desktop `Player` wrapper around the vlc
player collaborator: `raw_state` is `str(self.player.get_state())` (for
example `"State.NothingSpecial"`), `time` is `self.player.get_time()` in
milliseconds, `length` is `self.player.get_length()`, and `trace` records
the transport calls issued by the wrapper. -/
structure VlcPlayer where
  raw_state : String
  time : ℤ
  length : ℤ
  trace : List VlcCmd
  deriving DecidableEq

/-- Characters of the current segment after scanning past the last dot
seen so far; helper for the regex extraction below. -/
def segAfterLastDot (cur : List Char) : List Char → List Char
  | [] => cur
  | c :: cs => if c = '.' then segAfterLastDot [] cs else segAfterLastDot (cur ++ [c]) cs

/-- The word extracted by the regex `[\w.]*\.(\w*)` from the vlc state
string: the component after the last dot (the greedy prefix consumes up
to the final dot), e.g. `"Playing"` from `"State.Playing"`. -/
def stateName (raw : String) : String := String.mk (segAfterLastDot [] raw.data)

/-- The `_state` property: extracts the state word from
`str(self.player.get_state())` and maps `'NothingSpecial'` to
`'No Media'`. -/
def _state (p : VlcPlayer) : String :=
  let st := stateName p.raw_state
  if st = "NothingSpecial" then "No Media" else st

/-- The collaborator call `self.player.set_time(t)`: the vlc player is
told to move to millisecond `t`; the model records it and updates the
time it will report. -/
def set_time (t : ℤ) (p : VlcPlayer) : VlcPlayer :=
  { p with time := t, trace := p.trace ++ [VlcCmd.setTime t] }

/-- The `_ffwd_rewind(pos=10, rew=True)` method: returns immediately when
`self._state == 'No Media'`; otherwise computes
`to_postion` as `get_time()` minus `pos*1000` when rewinding and plus
`pos*1000` when fast-forwarding, and calls `set_time`. -/
def _ffwd_rewind (pos : ℤ) (rew : Bool) (p : VlcPlayer) : VlcPlayer :=
  if _state p = "No Media" then p
  else
    let to_postion := if rew then p.time - pos * 1000 else p.time + pos * 1000
    set_time to_postion p

/-- The `rewind(pos=10)` method: `self._ffwd_rewind(pos, True)`. -/
def rewind (pos : ℤ) (p : VlcPlayer) : VlcPlayer := _ffwd_rewind pos true p

/-- The `ffwd(pos=10)` method: `self._ffwd_rewind(pos, False)`. -/
def ffwd (pos : ℤ) (p : VlcPlayer) : VlcPlayer := _ffwd_rewind pos false p

/-- The desktop `stop` property: `self.player.stop()`, a collaborator
call only; no field of the wrapper is assigned. -/
def stopTransport (p : VlcPlayer) : VlcPlayer :=
  { p with trace := p.trace ++ [VlcCmd.halt] }

end Player

/-! Concrete example states used by witnesses and counterexamples. -/

/-- Example android state: a 180-second track of 180000 bytes
(`bytes_per_sec = 1000`), playing, anchored at wall-clock 0. -/
def exPlaying : Android.AndroidState where
  playing := true
  pause := false
  load := true
  stop := false
  startTime := 0
  pausePos := none
  loadTime := 0
  currentTime := 0
  elapse := 0
  contentLen := 180000
  duration := 180
  topos := 0
  trace := []
  name := "track"
  songpath := "/tmp/song.mp3"

/-- Example android state paused at position 10: the result of the
`pause` property on `exPlaying` at wall-clock 10. -/
def exPaused : Android.AndroidState := Android.pauseToggle 10 exPlaying

/-- Example desktop player with nothing loaded: vlc reports the state
`NothingSpecial` and a stale time value. -/
def exNoMedia : Player.VlcPlayer where
  raw_state := "State.NothingSpecial"
  time := 1234
  length := 60000
  trace := []

/-! Helper lemmas about the position arithmetic shared by the claims. -/

lemma truncQ_eq_floor {q : ℚ} (h : 0 ≤ q) : truncQ q = ⌊q⌋ := by
  simp [truncQ, h]

lemma current_position_eq_max (now : ℚ) (s : Android.AndroidState) :
    Android.current_position now s = max (now - s.startTime) 0 := by
  simp only [Android.current_position]
  rcases le_or_lt (now - s.startTime) 0 with h | h
  · rw [if_neg (not_lt.mpr h), max_eq_right h]
  · rw [if_pos h, max_eq_left h.le]

lemma current_position_nonneg (now : ℚ) (s : Android.AndroidState) :
    0 ≤ Android.current_position now s := by
  rw [current_position_eq_max]
  exact le_max_right _ _

lemma current_position_congr (now : ℚ) {s₁ s₂ : Android.AndroidState}
    (h : s₁.startTime = s₂.startTime) :
    Android.current_position now s₁ = Android.current_position now s₂ := by
  simp [Android.current_position, h]

lemma _play_startTime (now pos : ℚ) (s : Android.AndroidState) (hp : s.pause = false) :
    (Android._play now pos s).startTime = s.startTime - pos := by
  simp [Android._play, Android.preloadTrack, Android.loadSlice,
    Android.is_playing, Android.set_current_position, hp]

lemma seeker_startTime (now pos : ℚ) (s : Android.AndroidState) :
    (Android._seeker now pos s).startTime = s.startTime - pos := by
  by_cases hp : s.pause = true
  · rw [Android._seeker, if_pos hp, _play_startTime _ _ _ rfl]
  · rw [Bool.not_eq_true] at hp
    rw [Android._seeker, if_neg (by simp [hp]), _play_startTime now pos s hp]

/-- C4: performing `ffwd(pos)` and then `rewind(pos)` restores the
wall-clock anchor `_start_time` exactly, so the position read by
`current_position` at any instant coincides with the one read on the
original state: the signed seek deltas compose additively against the
anchor and the round trip returns to the base position. -/
theorem C4_seek_roundtrip (t1 t2 pos : ℚ) (s : Android.AndroidState) :
    (Android.rewind t2 pos (Android.ffwd t1 pos s)).startTime = s.startTime ∧
    ∀ t : ℚ, Android.current_position t (Android.rewind t2 pos (Android.ffwd t1 pos s)) =
      Android.current_position t s := by
  have h : (Android.rewind t2 pos (Android.ffwd t1 pos s)).startTime = s.startTime := by
    rw [Android.rewind, Android.ffwd, seeker_startTime, seeker_startTime]
    ring
  exact ⟨h, fun t => current_position_congr t h⟩

/-- C5: a backward seek larger than the current absolute position leaves
`current_position` clamped at 0 (the getter never reports a negative
value for any state), and the tracker arithmetic is total. -/
theorem C5_rewind_clamps (now pos : ℚ) (s : Android.AndroidState)
    (h : Android.current_position now s < pos) :
    Android.current_position now (Android.rewind now pos s) = 0 ∧
    ∀ (t : ℚ) (s' : Android.AndroidState), 0 ≤ Android.current_position t s' := by
  refine ⟨?_, fun t s' => current_position_nonneg t s'⟩
  have hst : (Android.rewind now pos s).startTime = s.startTime + pos := by
    rw [Android.rewind, seeker_startTime]
    ring
  rw [current_position_eq_max] at h ⊢
  rw [hst]
  have hx : now - s.startTime ≤ max (now - s.startTime) 0 := le_max_left _ _
  have : now - (s.startTime + pos) ≤ 0 := by linarith
  exact max_eq_right this

/-- C5 witness: rewinding by 10 seconds from position 5 ends at
position 0. -/
theorem C5_witness :
    Android.current_position 5 exPlaying < 10 ∧
    Android.current_position 5 (Android.rewind 5 10 exPlaying) = 0 := by
  have h : Android.current_position 5 exPlaying < 10 := by
    norm_num [Android.current_position, exPlaying]
  exact ⟨h, (C5_rewind_clamps 5 10 exPlaying h).1⟩

/-- C10: on the desktop player, `rewind` and `ffwd` (via `_ffwd_rewind`)
return without any transport call and without changing any observable
state when the player state is `'No Media'`: the call is a silent no-op
and no error is raised. -/
theorem C10_no_media_noop (pos : ℤ) (rew : Bool) (p : Player.VlcPlayer)
    (h : Player._state p = "No Media") :
    Player._ffwd_rewind pos rew p = p ∧
    Player.rewind pos p = p ∧ Player.ffwd pos p = p := by
  have h1 : ∀ b : Bool, Player._ffwd_rewind pos b p = p := fun b => by
    rw [Player._ffwd_rewind, if_pos h]
  exact ⟨h1 rew, h1 true, h1 false⟩

/-- C10 witness: on a player whose vlc state is `NothingSpecial`,
`rewind(10)` and `ffwd(10)` change nothing. -/
theorem C10_witness :
    Player._state exNoMedia = "No Media" ∧
    Player.rewind 10 exNoMedia = exNoMedia ∧
    Player.ffwd 10 exNoMedia = exNoMedia := by
  have h : Player._state exNoMedia = "No Media" := by decide
  exact ⟨h, (C10_no_media_noop 10 true exNoMedia h).2.1,
    (C10_no_media_noop 10 false exNoMedia h).2.2⟩

/-- C2 counterexample: in the paused state reached by pausing `exPlaying`
at wall-clock 10 (so the captured pause position is 10), the
`current_position` getter keeps advancing with the wall clock: it returns
15 at instant 15 and 20 at instant 20, never the frozen value 10, so
repeated calls while Paused do not return the same value. -/
theorem C2_cex :
    exPaused.pause = true ∧
    Android.pause_position exPaused = 10 ∧
    Android.current_position 15 exPaused = 15 ∧
    Android.current_position 20 exPaused = 20 ∧
    Android.current_position 15 exPaused ≠ Android.pause_position exPaused ∧
    Android.current_position 15 exPaused ≠ Android.current_position 20 exPaused := by
  norm_num [exPaused, exPlaying, Android.pauseToggle, Android.is_playing,
    Android.set_pause_position, Android.pause_position, Android.current_position]

/-- C2 amended: `current_position` always returns
`max (now - startTime) 0`, independent of the state flags (so it keeps
advancing while Paused and is not forced to 0 while Stopped or Loading);
the value frozen at the pause transition is captured into the separate
`pause_position` property, and pausing does not move the anchor, so the
getter is unchanged by the transition. -/
theorem C2_position_getter (now t : ℚ) (s : Android.AndroidState)
    (h : s.pause = false) :
    Android.current_position now s = max (now - s.startTime) 0 ∧
    Android.pause_position (Android.pauseToggle t s) = Android.current_position t s ∧
    (Android.pauseToggle t s).pause = true ∧
    Android.current_position now (Android.pauseToggle t s) =
      Android.current_position now s := by
  refine ⟨current_position_eq_max now s, ?_, ?_, ?_⟩
  all_goals
    simp [Android.pauseToggle, h, Android.is_playing, Android.set_pause_position,
      Android.pause_position, Android.current_position]

/-- C2 witness: pausing `exPlaying` at instant 10 freezes 10 into
`pause_position`, while the getter itself is the clamped anchor
difference. -/
theorem C2_witness :
    Android.current_position 15 exPlaying = max (15 - exPlaying.startTime) 0 ∧
    Android.pause_position (Android.pauseToggle 10 exPlaying) =
      Android.current_position 10 exPlaying ∧
    (Android.pauseToggle 10 exPlaying).pause = true := by
  have h := C2_position_getter 15 10 exPlaying rfl
  exact ⟨h.1, h.2.1, h.2.2.1⟩

/-- C3 counterexample: at the exact instant where the position equals the
duration (position 180 of a 180-second track, while playing), the finish
condition of `startClock` is still false because the source compares with
a strict inequality, while the claim requires `is_finished` to be true as
soon as `current_position >= duration`. -/
theorem C3_cex :
    exPlaying.duration ≤ Android.current_position 180 exPlaying ∧
    exPlaying.playing = true ∧
    ¬ Android.finish_condition true 180 exPlaying := by
  refine ⟨by norm_num [Android.current_position, exPlaying], rfl, ?_⟩
  intro hfc
  rcases hfc with ⟨-, hlt, -⟩
  norm_num [Android.current_position, Android.bytes_per_sec, exPlaying] at hlt

/-- C3 amended: for a track with positive duration and content length,
the end-of-track condition of `startClock` (behind its content-attribute
guard) holds exactly when `current_position` is strictly greater than the
duration while playing: `len(self)/bytes_per_sec` equals the duration, and
the comparison in the source is strict, so the condition is still false
when the position equals the duration exactly. -/
theorem C3_finish_strict (hc : Bool) (now : ℚ) (s : Android.AndroidState)
    (hd : 0 < s.duration) (hl : 0 < s.contentLen) :
    (Android.finish_condition hc now s ↔
      hc = true ∧ s.duration < Android.current_position now s ∧ s.playing = true) := by
  have hlen : ((s.contentLen : ℚ)) ≠ 0 := by
    exact_mod_cast hl.ne'
  have hD : s.duration ≠ 0 := hd.ne'
  have key : (s.contentLen : ℚ) / Android.bytes_per_sec s = s.duration := by
    rw [Android.bytes_per_sec, div_div_eq_mul_div, mul_comm, mul_div_assoc,
      div_self hlen, mul_one]
  rw [Android.finish_condition, key]

/-- C3 witness: one second past the end of the example track the finish
condition holds. -/
theorem C3_witness : Android.finish_condition true 181 exPlaying := by
  have h := C3_finish_strict true 181 exPlaying (by norm_num [exPlaying])
    (by norm_num [exPlaying])
  exact h.mpr ⟨rfl, by norm_num [Android.current_position, exPlaying], rfl⟩

/-- C9 counterexample: the `stop` property does not transition the state
to Stopped and does not clear the pause or position state: after `stop`
on a playing state the playing flag is still set, and after `stop` on the
paused example state the captured pause position and the anchor are
intact. -/
theorem C9_cex :
    exPlaying.playing = true ∧
    (Android.stopTransport exPlaying).playing = true ∧
    (Android.stopTransport exPaused).pausePos = some 10 ∧
    (Android.stopTransport exPaused).startTime = exPaused.startTime := by
  refine ⟨rfl, rfl, ?_, rfl⟩
  norm_num [Android.stopTransport, exPaused, exPlaying, Android.pauseToggle,
    Android.is_playing, Android.set_pause_position, Android.current_position]

/-- C9 amended: on both backends, `stop` only instructs the transport to
halt (the android `am stopservice` command, the desktop `player.stop()`
call); it performs no state transition and clears nothing: every tracker
field other than the recorded transport trace is preserved. -/
theorem C9_stop_transport_only (s : Android.AndroidState) (p : Player.VlcPlayer) :
    (Android.stopTransport s).trace = s.trace ++ [Android.Cmd.stopService] ∧
    (Android.stopTransport s).playing = s.playing ∧
    (Android.stopTransport s).pause = s.pause ∧
    (Android.stopTransport s).pausePos = s.pausePos ∧
    (Android.stopTransport s).startTime = s.startTime ∧
    (Android.stopTransport s).load = s.load ∧
    (Android.stopTransport s).stop = s.stop ∧
    (Player.stopTransport p).trace = p.trace ++ [Player.VlcCmd.halt] ∧
    (Player.stopTransport p).raw_state = p.raw_state ∧
    (Player.stopTransport p).time = p.time :=
  ⟨rfl, rfl, rfl, rfl, rfl, rfl, rfl, rfl, rfl, rfl⟩

/-- Example track whose byte rate is below one byte per second
(content shorter than its nominal duration): `bytes_per_sec = 1/2`. -/
def exThinTrack : Android.AndroidState :=
  { exPlaying with contentLen := 1, duration := 2 }

/-- Shape of the byte offset computed by `_play`: the integer `spot` is
the truncation of the re-read position plus the requested offset, and the
written offset is the truncation of `spot * bytes_per_sec` when `spot` is
positive and of `1 * bytes_per_sec` otherwise. -/
lemma _play_topos_eq (now pos : ℚ) (s : Android.AndroidState) :
    (Android._play now pos s).topos =
      (if 0 < truncQ (Android.current_position now (Android._play now pos s) + pos)
       then truncQ ((truncQ (Android.current_position now (Android._play now pos s) + pos) : ℚ) *
         Android.bytes_per_sec s)
       else truncQ (Android.bytes_per_sec s)) := by
  by_cases hp : s.pause = true <;>
    simp [Android._play, Android.preloadTrack, Android.loadSlice, Android.is_playing,
      Android.set_current_position, Android.current_position, Android.bytes_per_sec,
      Android.pause_position, apply_ite, hp] <;>
    split_ifs with h <;> intro h2 <;> omega

/-- Lower bound for the truncated byte offset shapes produced by
`loadSlice`: with a rate of at least one byte per second both branches
yield at least `⌊bytes_per_sec⌋` and stay strictly positive. -/
lemma truncQ_spot_ge (spot : ℤ) (b : ℚ) (hb : 1 ≤ b) :
    ⌊b⌋ ≤ (if 0 < spot then truncQ ((spot : ℚ) * b) else truncQ b) ∧
    0 < (if 0 < spot then truncQ ((spot : ℚ) * b) else truncQ b) := by
  have hb0 : (0:ℚ) ≤ b := le_trans zero_le_one hb
  have hfl : 1 ≤ ⌊b⌋ := by
    rw [Int.le_floor]
    exact_mod_cast hb
  by_cases hs : 0 < spot
  · rw [if_pos hs]
    have h1 : (1:ℚ) ≤ (spot : ℚ) := by exact_mod_cast hs
    have hmul : b ≤ (spot : ℚ) * b := le_mul_of_one_le_left hb0 h1
    have hnn : (0:ℚ) ≤ (spot : ℚ) * b := le_trans hb0 hmul
    rw [truncQ_eq_floor hnn]
    have hmono := Int.floor_le_floor hmul
    exact ⟨hmono, lt_of_lt_of_le (lt_of_lt_of_le Int.zero_lt_one hfl) hmono⟩
  · rw [if_neg hs, truncQ_eq_floor hb0]
    exact ⟨le_refl _, lt_of_lt_of_le Int.zero_lt_one hfl⟩

/-- C6 counterexample: for a loaded track with `content_length = 1` and
`duration = 2` the byte rate is `1/2 > 0`, yet the reload offset computed
by `_play(0)` is byte offset 0 — the truncation `int(1*bytes_per_sec)`
lands below one second's worth of bytes, contradicting the claim that
the offset is at least `bytes_per_sec` and never 0. -/
theorem C6_cex :
    (0:ℚ) < Android.bytes_per_sec exThinTrack ∧
    Android.bytes_per_sec exThinTrack = 1 / 2 ∧
    (Android._play 0 0 exThinTrack).topos = 0 := by
  refine ⟨?_, ?_, ?_⟩
  · norm_num [Android.bytes_per_sec, exThinTrack, exPlaying]
  · norm_num [Android.bytes_per_sec, exThinTrack, exPlaying]
  · norm_num [Android._play, Android.preloadTrack, Android.loadSlice,
      Android.set_current_position, Android.is_playing, Android.current_position,
      Android.bytes_per_sec, truncQ, exThinTrack, exPlaying]

/-- C6 amended: for every state whose byte rate is at least one byte per
second, and every requested play position, the byte offset written by
`_play` is at least `⌊bytes_per_sec⌋` (one second's worth of bytes up to
the `int(...)` truncation) and is strictly positive — in particular never
byte offset 0 — even when the computed spot is zero or negative. -/
theorem C6_min_offset (now pos : ℚ) (s : Android.AndroidState)
    (hb : 1 ≤ Android.bytes_per_sec s) :
    ⌊Android.bytes_per_sec s⌋ ≤ (Android._play now pos s).topos ∧
    0 < (Android._play now pos s).topos := by
  rw [_play_topos_eq]
  exact truncQ_spot_ge _ _ hb

/-- C6 witness: on the example track (1000 bytes per second) every reload
offset is at least 1000 bytes and positive, here at a negative spot. -/
theorem C6_witness :
    (1 ≤ Android.bytes_per_sec exPlaying) ∧
    ⌊Android.bytes_per_sec exPlaying⌋ ≤ (Android._play 0 (-7) exPlaying).topos ∧
    0 < (Android._play 0 (-7) exPlaying).topos := by
  have hb : 1 ≤ Android.bytes_per_sec exPlaying := by
    norm_num [Android.bytes_per_sec, exPlaying]
  exact ⟨hb, (C6_min_offset 0 (-7) exPlaying hb).1, (C6_min_offset 0 (-7) exPlaying hb).2⟩

/-- Example state with a degenerate track (duration and content length
both zero) and a leftover captured pause position. -/
def exZeroTrack : Android.AndroidState :=
  { exPlaying with duration := 0, contentLen := 0, pausePos := some 7 }

/-- C7 counterexample: `setTrack` accepts a track whose duration and
content length are both zero (the path check is the only validation — no
`InvalidTrackError` is raised), and it does not clear the previously
captured pause position: the resulting state still carries `some 7`. -/
theorem C7_cex :
    exZeroTrack.duration = 0 ∧ exZeroTrack.contentLen = 0 ∧
    (Android.setTrack 3 "t" "/sdcard/t.mp3" true exZeroTrack).isOk = true ∧
    (Android.setTrack 3 "t" "/sdcard/t.mp3" true exZeroTrack).toOption.map
      Android.AndroidState.pausePos = some (some 7) := by
  refine ⟨rfl, rfl, rfl, ?_⟩
  simp [Android.setTrack, Android.resetState, exZeroTrack, exPlaying, Except.toOption]

/-- C7 amended: `setTrack` succeeds exactly when the path is a file,
independently of the track's duration or content length (no validation of
either exists, and on failure the error is the `AndroidError` path
message); on success it resets the four state flags to false and zeroes
`current_time` but preserves the captured pause position as well as the
(unvalidated) duration and content length. -/
theorem C7_setTrack_no_validation (now : ℚ) (nm pth : String) (f : Bool)
    (s : Android.AndroidState) :
    (Android.setTrack now nm pth f s).isOk = f ∧
    (f = false → Android.setTrack now nm pth f s =
      Except.error "Internal Error: Media song invalid path") ∧
    ∀ s', Android.setTrack now nm pth f s = Except.ok s' →
      s'.pausePos = s.pausePos ∧ s'.playing = false ∧ s'.pause = false ∧
      s'.load = false ∧ s'.stop = false ∧ s'.duration = s.duration ∧
      s'.contentLen = s.contentLen ∧ s'.currentTime = 0 := by
  cases f
  · refine ⟨rfl, fun _ => rfl, ?_⟩
    intro s' h
    simp [Android.setTrack] at h
  · refine ⟨rfl, by simp, ?_⟩
    intro s' h
    simp only [Android.setTrack, Android.resetState, if_true] at h
    injection h with h
    subst h
    exact ⟨rfl, rfl, rfl, rfl, rfl, rfl, rfl, rfl⟩

/-- C7 witness: on the paused example state, a valid path is accepted
(and the resulting state keeps the captured pause position while the
flags are reset), and an invalid path raises the path error. -/
theorem C7_witness :
    (Android.setTrack 3 "nm" "/p" true exPaused).isOk = true ∧
    Android.setTrack 3 "nm" "/p" false exPaused =
      Except.error "Internal Error: Media song invalid path" ∧
    Android.AndroidState.pausePos
      { exPaused with
        playing := false, pause := false, load := false, stop := false,
        currentTime := 0, name := "nm", songpath := "/p", loadTime := 3,
        elapse := 3 - 3 } = exPaused.pausePos := by
  refine ⟨(C7_setTrack_no_validation 3 "nm" "/p" true exPaused).1,
    (C7_setTrack_no_validation 3 "nm" "/p" false exPaused).2.1 rfl,
    ((C7_setTrack_no_validation 3 "nm" "/p" true exPaused).2.2
      { exPaused with
        playing := false, pause := false, load := false, stop := false,
        currentTime := 0, name := "nm", songpath := "/p", loadTime := 3,
        elapse := 3 - 3 } rfl).1⟩

/-- Projection facts for `_play`: after `_play` the playing flag is set
and the pause flag is cleared (`_is_playing(True)`). -/
lemma _play_flags (now pos : ℚ) (s : Android.AndroidState) :
    (Android._play now pos s).playing = true ∧ (Android._play now pos s).pause = false :=
  ⟨rfl, rfl⟩

/-- C8 counterexample: `pause` is a toggle, not a Playing-only
transition: called on the paused example state it transitions back to
playing (via `_play`), so it does perform a transition from a state other
than Playing. -/
theorem C8_cex :
    exPaused.pause = true ∧ exPaused.playing = false ∧
    (Android.pauseToggle 20 exPaused).playing = true ∧
    (Android.pauseToggle 20 exPaused).pause = false :=
  ⟨rfl, rfl, rfl, rfl⟩

/-- C8 amended: `pause` branches on the pause flag alone.  Whenever the
pause flag is clear — from Playing, but equally from any other state —
it stops the transport, sets playing := false and pause := true, and
captures `pause_position = current_position`; whenever the pause flag is
set it instead resumes playback by calling `_play()` (position 0),
setting the playing flag again. -/
theorem C8_pause_toggle (now : ℚ) (s : Android.AndroidState) :
    (s.pause = false →
      Android.pauseToggle now s =
        { s with playing := false, pause := true,
                 pausePos := some (Android.current_position now s),
                 trace := s.trace ++ [Android.Cmd.stopService] }) ∧
    (s.pause = true →
      Android.pauseToggle now s = Android._play now 0 s ∧
      (Android.pauseToggle now s).playing = true ∧
      (Android.pauseToggle now s).pause = false) := by
  constructor
  · intro h
    cases s with
    | mk playing pause load stp startTime pausePos loadTime currentTime elapse
        contentLen duration topos trace nm sp =>
      subst h
      simp [Android.pauseToggle, Android.is_playing, Android.set_pause_position,
        Android.current_position]
  · intro h
    have hne : Android.pauseToggle now s = Android._play now 0 s := by
      rw [Android.pauseToggle, if_neg (by simp [h])]
    exact ⟨hne, by rw [hne]; exact (_play_flags now 0 s).1,
      by rw [hne]; exact (_play_flags now 0 s).2⟩

/-- C8 witness: pausing the playing example state at instant 10 yields
exactly the paused state with captured position 10; pausing again at
instant 20 resumes playback. -/
theorem C8_witness :
    Android.pauseToggle 10 exPlaying =
      { exPlaying with
        playing := false, pause := true,
        pausePos := some (Android.current_position 10 exPlaying),
        trace := exPlaying.trace ++ [Android.Cmd.stopService] } ∧
    (Android.pauseToggle 20 exPaused).playing = true :=
  ⟨(C8_pause_toggle 10 exPlaying).1 rfl,
    ((C8_pause_toggle 20 exPaused).2 rfl).2.1⟩

/-- C1 counterexample: on the example state paused at position 10, the
additive model says `play(5)` resumes at absolute position 15 and writes
byte offset `15 * bytes_per_sec = 15000`; the code indeed sets the
tracker position to 15, but the byte offset it writes is 20000 — the
requested offset is added a second time when the byte spot is computed
(`spot = int(current_position + position)` after the position was already
moved to `pause_position + position`). -/
theorem C1_cex :
    Android.pause_position exPaused = 10 ∧
    Android.current_position 30 (Android._play 30 5 exPaused) = 15 ∧
    (15 : ℚ) * Android.bytes_per_sec exPaused = 15000 ∧
    (Android._play 30 5 exPaused).topos = 20000 := by
  refine ⟨?_, ?_, ?_, ?_⟩ <;>
    norm_num [exPaused, exPlaying, Android.pauseToggle, Android.is_playing,
      Android.set_pause_position, Android.pause_position, Android._play,
      Android.preloadTrack, Android.loadSlice, Android.set_current_position,
      Android.current_position, Android.bytes_per_sec, Option.getD, truncQ]

/-- C1 amended: resuming from Paused with captured position `p`,
`_play(off)` does set the tracker's absolute position to `p + off` (the
difference-based recomputation cancels to the additive model for the
position), but the byte offset written to the transport is
`int(int(p + off + off) * bytes_per_sec)` — the requested offset enters
twice — falling back to one second's worth of bytes when that spot is not
positive; starting fresh (pause flag clear, anchor just reset to the call
instant), the position becomes `off` and the byte offset likewise uses
`off + off`. -/
theorem C1_resume_offset (now t off p : ℚ) (s sf : Android.AndroidState)
    (hp : s.pause = true) (hpp : s.pausePos = some p)
    (h0 : 0 < now - s.startTime) (hps : 0 < p + off)
    (hf : sf.pause = false) (hf0 : sf.startTime = t) (hoff : 0 ≤ off) :
    Android.current_position now (Android._play now off s) = p + off ∧
    (Android._play now off s).topos =
      (if 0 < truncQ (p + off + off)
        then truncQ ((truncQ (p + off + off) : ℚ) * Android.bytes_per_sec s)
        else truncQ (Android.bytes_per_sec s)) ∧
    Android.current_position t (Android._play t off sf) = off ∧
    (Android._play t off sf).topos =
      (if 0 < truncQ (off + off)
        then truncQ ((truncQ (off + off) : ℚ) * Android.bytes_per_sec sf)
        else truncQ (Android.bytes_per_sec sf)) := by
  have h0' : s.startTime < now := by linarith
  have hst : (Android._play now off s).startTime = now - (p + off) := by
    simp [Android._play, Android.preloadTrack, Android.loadSlice, Android.is_playing,
      Android.set_current_position, Android.pause_position, Android.current_position,
      hp, hpp, h0']
    ring
  have h1 : Android.current_position now (Android._play now off s) = p + off := by
    rw [current_position_eq_max, hst,
      show now - (now - (p + off)) = p + off from by ring, max_eq_left hps.le]
  have hstf : (Android._play t off sf).startTime = t - off := by
    rw [_play_startTime t off sf hf, hf0]
  have h3 : Android.current_position t (Android._play t off sf) = off := by
    rw [current_position_eq_max, hstf,
      show t - (t - off) = off from by ring, max_eq_left hoff]
  refine ⟨h1, ?_, h3, ?_⟩
  · rw [_play_topos_eq, h1]
  · rw [_play_topos_eq, h3]

/-- C1 witness: resuming the example state paused at 10 with offset 5 at
instant 30 lands the tracker at 15; a fresh start with offset 5 at
instant 0 lands at 5. -/
theorem C1_witness :
    Android.current_position 30 (Android._play 30 5 exPaused) = 10 + 5 ∧
    Android.current_position 0 (Android._play 0 5 exPlaying) = 5 := by
  have h := C1_resume_offset 30 0 5 10 exPaused exPlaying rfl
    (by norm_num [exPaused, exPlaying, Android.pauseToggle, Android.is_playing,
      Android.set_pause_position, Android.current_position])
    (by norm_num [exPaused, exPlaying, Android.pauseToggle, Android.is_playing,
      Android.set_pause_position])
    (by norm_num) rfl rfl (by norm_num)
  exact ⟨h.1, h.2.2.1⟩
